import Mathlib

/-!
Verification of the hemeroteca relevance-scoring core.

This file is a shallow embedding, in Lean 4, of the parts of the repository
that the verified claims are about:

* src/common.rs   — the data model (NewsItem, PipelineError, FeedbackRecord,
                    Operator), PipelineError string round-trip, cmp_relevance
                    and get_bow;
* src/relevance.rs — the lexical relevance scorer (Sorensen-Dice vocabulary
                    matching, calculate_relevance_core, calculate_relevance,
                    Relevance and its comparison);
* src/lib.rs      — the opt-in ingestion filter, the top-k selectors, and the
                    feedback similarity scorer
                    (calculate_relevance_by_cosine_similarity,
                    calculate_relevance_of_newsitem,
                    update_relevance_of_news_items).

Modelling conventions, stated once:

* Rust f64 values are modelled as rationals.  All the float arithmetic the
  claims quantify over (thresholded comparison, averaging, the decay factor)
  is plain field arithmetic; f64 NaN behaviour is modelled explicitly, by the
  type F64 below, exactly where a claim is about NaN (C10).  Under the
  rational model, a division whose real counterpart would be NaN or infinite
  returns 0, and on every such path the Rust code also produces 0 via its
  is_nan / is_infinite guard, so the verdicts agree.
* Rust u64 counters are modelled as Nat: every counter here is bounded by a
  small multiple of an in-memory string length, far from wrap-around.
* Rust's stable sort_by is modelled by a stable insertion sort (sortBy
  below).  A stable sort with respect to a total comparator has a unique
  result, so the choice of algorithm is semantically irrelevant; the lemmas
  sortBy_perm and sortBy_sorted give the two facts the claims use.
* The embedding model (an external collaborator: build_model_and_tokenizer /
  generate_embeddings) and the f32 cosine kernel (sum_ab / sqrt(sum_a2 *
  sum_b2), an irrational-valued float computation) enter the claims only
  through the scalar each query/record pair is mapped to.  They are
  parameters of the embedded functions (the embeddings of the item, and the
  similarity measure sim); every theorem quantifies over them, so it holds
  in particular for the real kernel.
* tokio fan-out/fan-in: the code awaits every JoinHandle, in spawn order, so
  the collected result list is deterministic and is modelled by a map in
  spawn order; completion-order nondeterminism is invisible to it.
* Wall-clock values (elapsed_time, the current date) are parameters (the
  elapsed-day count is passed in, elapsed_time is modelled as 0); they feed
  no claim except through the day count.
-/

/-! # Data model (src/common.rs) -/

/-- Operator from src/common.rs: how an opt-in term list is combined. -/
inductive Operator : Type
  | AND : Operator
  | OR : Operator
deriving DecidableEq

/-- PipelineError from src/common.rs: the closed error variant attached to a
news item. -/
inductive PipelineError : Type
  | EmptyString : PipelineError
  | ParsingError : String → PipelineError
  | NoContent : PipelineError
  | NetworkError : String → PipelineError
  | UnknownError : PipelineError
deriving DecidableEq

/-- A model of f64 sufficient for the comparison claims: NaN, the two
infinities and the finite values (modelled as rationals). -/
inductive F64 : Type
  | nan : F64
  | negInf : F64
  | num : ℚ → F64
  | posInf : F64
deriving DecidableEq

/-- Whether an F64 value is a NaN. -/
def F64.isNan : F64 → Bool
  | .nan => true
  | _ => false

/-- Model of f64::partial_cmp: none exactly when one side is NaN, and the
usual total order on the rest. -/
def F64.partial_cmp : F64 → F64 → Option Ordering
  | .nan, _ => none
  | _, .nan => none
  | .negInf, .negInf => some .eq
  | .negInf, _ => some .lt
  | _, .negInf => some .gt
  | .posInf, .posInf => some .eq
  | .posInf, _ => some .gt
  | _, .posInf => some .lt
  | .num a, .num b => some (compare a b)

/-- NewsItem from src/common.rs, parametric in the scalar type used for the
relevance field (instantiated with Rat for the arithmetic claims and with F64
for the NaN claim C10). -/
structure NewsItem (α : Type) : Type where
  channel : String
  title : String
  link : String
  description : String
  creators : String
  pub_date : Option String
  categories : Option String
  keywords : Option String
  clean_content : Option String
  error : Option PipelineError
  relevance : Option α
deriving DecidableEq

/-- FeedbackRecord from src/common.rs: a rated item with its two stored
embedding vectors (f32 entries modelled as rationals). -/
structure FeedbackRecord : Type where
  news_item : NewsItem ℚ
  title_embedding : List ℚ
  bow_embedding : List ℚ
deriving DecidableEq

/-! # PipelineError string forms (src/common.rs) -/

/-- PipelineError::as_str. -/
def PipelineError.as_str : PipelineError → String
  | .EmptyString => "EmptyString"
  | .ParsingError _ => "ParsingError"
  | .NoContent => "NoContent"
  | .NetworkError _ => "NetworkError"
  | .UnknownError => "UnknownError"

/-- PipelineError::as_string: the canonical textual form, with the payload in
parentheses for the two payload-carrying variants. -/
def PipelineError.as_string : PipelineError → String
  | .EmptyString => "EmptyString"
  | .ParsingError e => "ParsingError(" ++ e ++ ")"
  | .NoContent => "NoContent"
  | .NetworkError e => "NetworkError(" ++ e ++ ")"
  | .UnknownError => "UnknownError"

/-- Whether a string is free of newline characters: the regex metacharacter
for any character used by from_str's pattern does not match a newline. -/
def noNewline (s : String) : Bool :=
  s.data.all (fun c => c ≠ '\n')

/-- Captures of the anchored Rust regex
ParsingError-paren-any-paren, or NetworkError-paren-any-paren, or
EmptyString, or NoContent (the whole alternation is group 1, the two payload
groups are groups 2 and 3), against a whole input string.  none when the
regex does not match.  The alternation is tried left to right and each branch
must span the whole string because of the anchors. -/
def pipelineErrorCaptures (s : String) : Option (String × Option String × Option String) :=
  if "ParsingError(".data.isPrefixOf s.data ∧ ")".data.isSuffixOf s.data ∧
      "ParsingError(".length + 1 ≤ s.length ∧
      noNewline (((s.drop "ParsingError(".length).dropRight 1)) then
    some (s, some ((s.drop "ParsingError(".length).dropRight 1), none)
  else if "NetworkError(".data.isPrefixOf s.data ∧ ")".data.isSuffixOf s.data ∧
      "NetworkError(".length + 1 ≤ s.length ∧
      noNewline (((s.drop "NetworkError(".length).dropRight 1)) then
    some (s, none, some ((s.drop "NetworkError(".length).dropRight 1))
  else if s = "EmptyString" then
    some (s, none, none)
  else if s = "NoContent" then
    some (s, none, none)
  else
    none

/-- PipelineError::from_str (src/common.rs): capture the regex groups, then
match group 1 against the literal variant names.  Note that for the two
payload-carrying branches group 1 holds the whole matched text, payload and
parentheses included, so the two corresponding match arms compare it against
a bare variant name; none models the Err("No match") path. -/
def PipelineError.from_str (error : String) : Option PipelineError :=
  match pipelineErrorCaptures error with
  | none => none
  | some (g1, g2, g3) =>
    if g1 = "EmptyString" then some .EmptyString
    else if g1 = "NoContent" then some .NoContent
    else if g1 = "ParsingError" then Option.map PipelineError.ParsingError g2
    else if g1 = "NetworkError" then Option.map PipelineError.NetworkError g3
    else none

/-! # NewsItem methods (src/common.rs) -/

/-- NewsItem::cmp_relevance on items whose relevance scalar is a full f64:
both present compares via partial_cmp and unwrap (none here models the
unwrap panic on NaN), a present value ranks above an absent one, two absent
values are equal. -/
def NewsItem.cmp_relevance (a b : NewsItem F64) : Option Ordering :=
  match a.relevance, b.relevance with
  | some x, some y => F64.partial_cmp x y
  | some _, none => some .gt
  | none, some _ => some .lt
  | none, none => some .eq

/-- Rust's str::to_lowercase, modelled character-wise with the ASCII-exact
Char.toLower (the inputs the claims evaluate it on are ASCII; the full
Unicode lowercasing table is outside the model). -/
def toLowercase (s : String) : String :=
  String.mk (s.data.map Char.toLower)

/-- The closure add_to_bow inside NewsItem::get_bow: insert the whole
lowercased field string (when the field is present) into the set.  The
HashSet is modelled as a duplicate-free list in insertion order. -/
def addToBow (bow : List String) (text : Option String) : List String :=
  match text with
  | some items => if toLowercase items ∈ bow then bow else bow ++ [toLowercase items]
  | none => bow

/-- NewsItem::get_bow: insert the keywords field and then the categories
field (each as one whole lowercased string) into a set, and join the set's
elements with single spaces.  The iteration order of the at-most-two-element
HashSet is unspecified in Rust; the model uses insertion order, and the
theorems about get_bow are stated so that they do not depend on which of the
two orders is observed (C8's counterexample uses a one-element set). -/
def NewsItem.get_bow (it : NewsItem ℚ) : String :=
  String.intercalate " " (addToBow (addToBow [] it.keywords) it.categories)

/-! # Lexical relevance (src/relevance.rs) -/

/-- The Unicode White_Space property, as Rust's char::is_whitespace tests it
(used by split_whitespace and by strsim's whitespace filter). -/
def rustIsWhitespace (c : Char) : Bool :=
  c = ' ' ∨ ('\x09' ≤ c ∧ c ≤ '\x0d') ∨ c = '\x85' ∨ c = '\xa0' ∨
    c = ' ' ∨ (' ' ≤ c ∧ c ≤ ' ') ∨ c = ' ' ∨
    c = ' ' ∨ c = ' ' ∨ c = ' ' ∨ c = '　'

/-- Splitting a string at every occurrence of one character (Rust's
str::split with a one-character pattern, as the source always uses it). -/
def splitOnChar (c : Char) (s : String) : List String :=
  (List.splitOnP (fun x => x = c) s.data).map String.mk

/-- Rust's str::split_whitespace: split at every Unicode-whitespace
character and drop the empty pieces. -/
def splitWhitespace (s : String) : List String :=
  ((List.splitOnP rustIsWhitespace s.data).map String.mk).filter (fun w => w ≠ "")

/-- The UTF-8 byte size of a list of characters (Rust's str::len on the
string they spell). -/
def utf8Len (l : List Char) : ℕ :=
  (l.map Char.utf8Size).sum

/-- Character bigrams of a string, as strsim builds them: each character
zipped with its successor. -/
def bigramsOf (l : List Char) : List (Char × Char) :=
  l.zip l.tail

/-- The strsim multiset-intersection loop: walk the second string's bigrams
and consume one matching occurrence from the first string's bigram multiset
for each hit, counting the hits. -/
def interSize (as bs : List (Char × Char)) : ℕ :=
  (bs.foldl
    (fun acc g => if g ∈ acc.2 then (acc.1 + 1, acc.2.erase g) else acc)
    ((0 : ℕ), as)).1

/-- strsim::sorensen_dice (the external text-distance collaborator used by
src/relevance.rs), modelled from its published implementation: filter out
whitespace, return 1 for equal strings, 0 when either filtered string is
shorter than two bytes, and otherwise twice the bigram-multiset intersection
over the total character count minus two.  On the 0/0 path (two distinct
one-character strings of multi-byte characters) the Rust value is NaN and
every threshold comparison is false; the rational model returns 0 there and
the comparisons agree because the thresholds used are positive. -/
def sorensen_dice (a b : String) : ℚ :=
  let a' := a.data.filter (fun c => ¬ rustIsWhitespace c)
  let b' := b.data.filter (fun c => ¬ rustIsWhitespace c)
  if a' = b' then 1
  else if utf8Len a' < 2 ∨ utf8Len b' < 2 then 0
  else
    (2 * interSize (bigramsOf a') (bigramsOf b') : ℚ) /
      ((a'.length + b'.length - 2 : ℕ) : ℚ)

/-- DICE_COEFFICIENT from src/relevance.rs. -/
def DICE_COEFFICIENT : ℚ := 75 / 100

/-- ROOT_WORDS from src/relevance.rs, as written (the Rust HashSet
deduplicates the repeated entry; membership is unaffected). -/
def ROOT_WORDS : List String :=
  ["Presidente", "Presidencial", "Gobierno", "Crisis", "Elección", "Elecciones", "Ley", "Ministro", "Economía", "Defensa",
   "Inflación", "Desempleo", "Reforma", "Diplomático", "Crisis", "Ataque", "Seguridad", "Migración",
   "Infección", "Hospital", "Tecnología", "Tecnológico", "Innovación", "Ciberseguridad", "Clima", "Energía",
   "Guerra", "Conflicto", "Policía", "Crimen", "Corrupción", "Arresto", "Caos", "Protesta",
   "President", "Presidential", "Government", "Crisis", "Election", "Law", "Minister", "Economy", "Defense",
   "Inflation", "Unemployment", "Reform", "Diplomatic", "Crisis", "Attack", "Security", "Migration",
   "Infection", "Hospital", "Technology", "Technologic", "Innovation", "Cybersecurity", "Climate", "Energy",
   "War", "Conflict", "Police", "Crime", "Corruption", "Arrest", "Chaos", "Protest"]

/-- get_combined_root_words from src/relevance.rs: the words read from the
user's root_words.txt (an external input, passed here as the parameter
extra) together with ROOT_WORDS.  Set semantics: only membership is ever
used, so the duplicate-free structure of the HashSet is irrelevant. -/
def get_combined_root_words (extra : List String) : List String :=
  extra ++ ROOT_WORDS

/-- similar_to_root_word from src/relevance.rs: whether some combined root
word has Sorensen-Dice similarity at least the coefficient to the word. -/
def similar_to_root_word (extra : List String) (word : String) (coefficient : ℚ) : Bool :=
  (get_combined_root_words extra).any (fun root => coefficient ≤ sorensen_dice root word)

/-- One accumulation loop of calculate_relevance_core: add weight for every
token of the list that is similar to a root word. -/
def relevanceLoop (extra : List String) (weight : ℕ) (tokens : List String) : ℕ :=
  tokens.foldl
    (fun relevance tok =>
      if similar_to_root_word extra tok DICE_COEFFICIENT then relevance + weight
      else relevance)
    0

/-- calculate_relevance_core from src/relevance.rs: the error flag and the
five weighted component counts (creator, categories, keywords, title,
description).  extra is the external word-list input of
get_combined_root_words. -/
def calculate_relevance_core (extra : List String) (news_item : NewsItem ℚ) :
    Bool × ℕ × ℕ × ℕ × ℕ × ℕ :=
  if news_item.error.isSome then (true, 0, 0, 0, 0, 0)
  else
    let relevance_by_creator := if 0 < utf8Len news_item.creators.data then 10 else 0
    let relevance_by_categories :=
      match news_item.categories with
      | some categories => relevanceLoop extra 5 (splitOnChar ',' categories)
      | none => 0
    let relevance_by_keywords :=
      match news_item.keywords with
      | some keywords => relevanceLoop extra 5 (splitOnChar ',' keywords)
      | none => 0
    let relevance_by_title :=
      if 0 < utf8Len news_item.title.data then
        relevanceLoop extra 10 (splitWhitespace news_item.title)
      else 0
    let relevance_by_description :=
      if 0 < utf8Len news_item.description.data then
        relevanceLoop extra 1 (splitWhitespace news_item.description)
      else 0
    (false, relevance_by_creator, relevance_by_categories, relevance_by_keywords,
      relevance_by_title, relevance_by_description)

/-- Relevance from src/relevance.rs (elapsed_time is wall clock; it feeds no
claim and the model always passes 0 for it). -/
structure Relevance : Type where
  error : Bool
  relevance_core : ℕ
  relevance_content : ℕ
  explanation : String
  elapsed_time : ℚ
deriving DecidableEq

/-- Relevance::build_explanation.  The Rust error branch builds an error
message and discards it (a statement, not a return), so the breakdown text is
produced unconditionally; the model reproduces that. -/
def Relevance.build_explanation (error : Bool) (by_creator by_categories by_keyword by_title by_content : ℕ) : String :=
  let _ := if error then "Error in the news item" else ""
  "breakdown [creator: " ++ toString by_creator ++
    ", categories: " ++ toString by_categories ++
    ", keywords: " ++ toString by_keyword ++
    ", title: " ++ toString by_title ++
    ", content: " ++ toString by_content ++ "]"

/-- Relevance::new: the core subtotal is the sum of the five weighted
components. -/
def Relevance.new (relevance_core : Bool × ℕ × ℕ × ℕ × ℕ × ℕ) (relevance_content : ℕ) (elapsed_time : ℚ) : Relevance :=
  { error := relevance_core.1
    relevance_core := relevance_core.2.1 + relevance_core.2.2.1 + relevance_core.2.2.2.1 +
      relevance_core.2.2.2.2.1 + relevance_core.2.2.2.2.2
    relevance_content := relevance_content
    explanation := Relevance.build_explanation relevance_core.1 relevance_core.2.1
      relevance_core.2.2.1 relevance_core.2.2.2.1 relevance_core.2.2.2.2.1
      relevance_core.2.2.2.2.2
    elapsed_time := elapsed_time }

/-- Relevance::net_relevance: core subtotal plus the body-content
component. -/
def Relevance.net_relevance (r : Relevance) : ℕ :=
  r.relevance_core + r.relevance_content

/-- Ordering on Bool as Rust's Ord for bool: false is less than true. -/
def cmpBool : Bool → Bool → Ordering
  | false, false => .eq
  | false, true => .lt
  | true, false => .gt
  | true, true => .eq

/-- Relevance::cmp from src/relevance.rs: first the error flag (via bool's
order, in which false is the smaller value), then the five-component core
subtotal, then the body-content component. -/
def Relevance.cmp (a b : Relevance) : Ordering :=
  if a.error ≠ b.error then cmpBool a.error b.error
  else if a.relevance_core ≠ b.relevance_core then compare a.relevance_core b.relevance_core
  else compare a.relevance_content b.relevance_content

/-- calculate_relevance from src/relevance.rs: the core components, plus the
body-content pass (1 per clean-content word similar to a root word) that only
runs when the core reported no error. -/
def calculate_relevance (extra : List String) (news_item : NewsItem ℚ) : Relevance :=
  let relevance_core := calculate_relevance_core extra news_item
  if relevance_core.1 then Relevance.new relevance_core 0 0
  else
    let relevance_content :=
      match news_item.clean_content with
      | some clean_content => relevanceLoop extra 1 (splitWhitespace clean_content)
      | none => 0
    Relevance.new relevance_core relevance_content 0

/-! # A model of Rust's stable sort_by

Rust's slice::sort_by is a stable sort with respect to the comparator; a
stable sort with respect to a total comparator determines the output
uniquely, so any stable sorting algorithm models it.  The model is a stable
insertion sort: an element is inserted after every already-placed element
that does not compare greater than it, which preserves the original relative
order of elements that compare equal. -/

/-- Insert x into l, after every leading element y with c x y = gt. -/
def insertBy {α : Type} (c : α → α → Ordering) (x : α) : List α → List α
  | [] => [x]
  | y :: ys => if c x y = .gt then y :: insertBy c x ys else x :: y :: ys

/-- Stable insertion sort by the comparator c (the model of sort_by). -/
def sortBy {α : Type} (c : α → α → Ordering) : List α → List α
  | [] => []
  | x :: xs => insertBy c x (sortBy c xs)

/-- Inserting is a permutation of consing. -/
theorem insertBy_perm {α : Type} (c : α → α → Ordering) (x : α) (l : List α) :
    (insertBy c x l).Perm (x :: l) := by
  induction l with
  | nil => simp [insertBy]
  | cons y ys ih =>
    by_cases h : c x y = .gt
    · simp only [insertBy, if_pos h]
      exact ((ih.cons y).trans (List.Perm.swap x y ys))
    · simp [insertBy, if_neg h]

/-- Sorting is a permutation of the input. -/
theorem sortBy_perm {α : Type} (c : α → α → Ordering) (l : List α) :
    (sortBy c l).Perm l := by
  induction l with
  | nil => simp [sortBy]
  | cons x xs ih =>
    exact (insertBy_perm c x (sortBy c xs)).trans (ih.cons x)

/-- Membership in an insertion. -/
theorem mem_insertBy {α : Type} {c : α → α → Ordering} {x z : α} {l : List α} :
    z ∈ insertBy c x l ↔ z = x ∨ z ∈ l := by
  constructor
  · intro hz
    exact List.mem_cons.mp ((insertBy_perm c x l).mem_iff.mp hz)
  · intro hz
    exact (insertBy_perm c x l).mem_iff.mpr (List.mem_cons.mpr hz)

/-- Sortedness (no adjacent pair in the wrong order, pairwise) of an
insertion, for a comparator that is antisymmetric and transitive in the
not-greater sense. -/
theorem insertBy_pairwise {α : Type} {c : α → α → Ordering}
    (hantisym : ∀ a b, c a b = .gt → c b a ≠ .gt)
    (htrans : ∀ a b d, c a b ≠ .gt → c b d ≠ .gt → c a d ≠ .gt)
    {x : α} {l : List α} (hl : l.Pairwise (fun a b => c a b ≠ .gt)) :
    (insertBy c x l).Pairwise (fun a b => c a b ≠ .gt) := by
  induction l with
  | nil => simp [insertBy]
  | cons y ys ih =>
    rcases List.pairwise_cons.mp hl with ⟨hy, hys⟩
    by_cases h : c x y = .gt
    · simp only [insertBy, if_pos h]
      refine List.Pairwise.cons ?_ (ih hys)
      intro z hz
      rcases mem_insertBy.mp hz with rfl | hz
      · exact hantisym _ _ h
      · exact hy z hz
    · simp only [insertBy, if_neg h]
      refine List.Pairwise.cons ?_ hl
      intro z hz
      rcases List.mem_cons.mp hz with rfl | hz
      · exact h
      · exact htrans x y z h (hy z hz)

/-- Sortedness of sortBy under the same comparator hypotheses. -/
theorem sortBy_pairwise {α : Type} {c : α → α → Ordering}
    (hantisym : ∀ a b, c a b = .gt → c b a ≠ .gt)
    (htrans : ∀ a b d, c a b ≠ .gt → c b d ≠ .gt → c a d ≠ .gt)
    (l : List α) :
    (sortBy c l).Pairwise (fun a b => c a b ≠ .gt) := by
  induction l with
  | nil => simp [sortBy]
  | cons x xs ih => exact insertBy_pairwise hantisym htrans ih

/-! # Ingestion filter (src/lib.rs, fetch_news_items_opted_in) -/

/-- Whether the list needle occurs contiguously inside the list hay (Rust's
str::contains on the spelled strings; on valid UTF-8, byte-level substring
occurrence and character-level substring occurrence coincide because UTF-8 is
self-synchronizing). -/
def listContainsSub {α : Type} [DecidableEq α] (needle : List α) : List α → Bool
  | [] => needle.isEmpty
  | b :: bs => needle.isPrefixOf (b :: bs) || listContainsSub needle bs

/-- Rust str::contains for strings. -/
def strContains (hay needle : String) : Bool :=
  listContainsSub needle.data hay.data

/-- The retain predicate of fetch_news_items_opted_in (src/lib.rs): with the
item's categories and keywords each defaulting to the empty string, keep
everything when opt_in is empty, and otherwise combine per-term substring
hits with all (AND) or any (OR). -/
def optInPred (opt_in : List String) (operator : Operator) (item : NewsItem ℚ) : Bool :=
  let categories := item.categories.getD ""
  let keywords := item.keywords.getD ""
  if opt_in.isEmpty then true
  else
    match operator with
    | .AND => opt_in.all (fun t => strContains categories t || strContains keywords t)
    | .OR => opt_in.any (fun t => strContains categories t || strContains keywords t)

/-- The filtering step of fetch_news_items_opted_in: all_items.retain(..)
keeps, in order, the items satisfying the predicate.  (The surrounding
function also fetches the feeds over the network and finally shuffles; the
claims are about the retain step, so the model takes the fetched items as
input and stops before the shuffle.) -/
def fetch_news_items_opted_in (all_items : List (NewsItem ℚ)) (opt_in : List String) (operator : Operator) : List (NewsItem ℚ) :=
  all_items.filter (optInPred opt_in operator)

/-! # Top-k selectors (src/lib.rs) -/

/-- top_k_news_items (src/lib.rs): score every item with the lexical scorer,
sort the (item, relevance) pairs by sort_by(b.relevance.cmp(a.relevance)) --
descending order of Relevance::cmp -- and keep the first top_k items. -/
def top_k_news_items (extra : List String) (top_k : ℕ) (news_items : List (NewsItem ℚ)) : List (NewsItem ℚ) :=
  let items_with_relevance := news_items.map (fun item => (item, calculate_relevance extra item))
  let sorted := sortBy (fun a b => Relevance.cmp b.2 a.2) items_with_relevance
  (sorted.take top_k).map (fun p => p.1)

/-- The per-task body of update_news_items_with_relevance: attach the
lexical net relevance (a u64 count, read back as an f64) to the item. -/
def updateWithNet (extra : List String) (it : NewsItem ℚ) : NewsItem ℚ :=
  { it with relevance := some (((calculate_relevance extra it).net_relevance : ℕ) : ℚ) }

/-- update_news_items_with_relevance (src/lib.rs): pop the items one by one
(so they are processed in reverse input order), give each the lexical net
relevance, and return none exactly when there were no items. -/
def update_news_items_with_relevance (extra : List String) (news_items : List (NewsItem ℚ)) : Option (List (NewsItem ℚ)) :=
  let updated := news_items.reverse.map (updateWithNet extra)
  if updated.isEmpty then none else some updated

/-- The sort_by closure of update_news_items_with_relevance_top_k
(src/lib.rs): compare two items by relevance, descending, an absent value
ranking below every present one.  On two present values the source unwraps
f64::partial_cmp; the values present here are net_relevance counts cast to
f64, never NaN, so the rational compare models it exactly. -/
def relevanceTopKCmp (a b : NewsItem ℚ) : Ordering :=
  match b.relevance, a.relevance with
  | some b_relevance, some a_relevance => compare b_relevance a_relevance
  | none, some _ => .gt
  | some _, none => .lt
  | none, none => .eq

/-- update_news_items_with_relevance_top_k (src/lib.rs): update every item
with its lexical relevance, sort descending by relevance with absent values
last, and take the first k.  none models the expect() panic on an empty
update result. -/
def update_news_items_with_relevance_top_k (extra : List String) (items : List (NewsItem ℚ)) (k : ℕ) : Option (List (NewsItem ℚ)) :=
  Option.map (fun updated => (sortBy relevanceTopKCmp updated).take k)
    (update_news_items_with_relevance extra items)

/-! # Feedback similarity scorer (src/lib.rs) -/

/-- calculate_relevance_by_cosine_similarity (src/lib.rs).  The f32 cosine
kernel is the parameter sim (see the conventions above); extractor is the
function-pointer argument that picks a stored embedding and the stored
relevance out of a record, with an absent stored relevance defaulting to 0
at the call sites.  Each spawned task asserts that the record embedding has
the query's dimensionality, and a failed assert aborts the whole call: the
none result models that abort.  The per-record similarities are filtered by
strict comparison against the threshold, sorted descending by similarity
(the sort does not change the multiset), and the passing records' relevances
are averaged; the source then maps a NaN, infinite or negative average to 0,
of which only the negative case can arise over the rationals (the average of
a nonempty list is a finite rational). -/
def calculate_relevance_by_cosine_similarity
    (sim : List ℚ → List ℚ → ℚ)
    (embedding : List ℚ) (feedback_records : List FeedbackRecord)
    (threshold : ℚ) (extractor : FeedbackRecord → List ℚ × ℚ) : Option ℚ :=
  if feedback_records.all (fun r => (extractor r).1.length = embedding.length) then
    let results := feedback_records.map (fun r => (sim embedding (extractor r).1, (extractor r).2))
    let similarities := results.filter (fun p => threshold < p.1)
    let sorted := sortBy (fun a b => compare b.1 a.1) similarities
    if sorted.isEmpty then some 0
    else
      let relevances := sorted.map (fun p => p.2)
      let avg_relevance := relevances.sum / (relevances.length : ℚ)
      if avg_relevance < 0 then some 0 else some avg_relevance
  else none

/-- The extractor both call sites of calculate_relevance_of_newsitem pass:
the record's stored TITLE embedding (for the bag-of-words query too), and
the record's stored relevance with 0 for an absent value
(relevance.unwrap_or_default()). -/
def titleExtractor (record : FeedbackRecord) : List ℚ × ℚ :=
  (record.title_embedding, record.news_item.relevance.getD 0)

/-- calculate_relevance_of_newsitem (src/lib.rs).  title_embedding and
bow_embedding are the embeddings the external model returns for the item's
title and bag of words; days_since_publication is
(Local::now() - pub_date).num_days() when the item has a publication date
(none when it has not).  Both per-query relevances are computed against each
record's stored title embedding via titleExtractor; their maximum is then
scaled by max(1 - 0.1 * days, 0.7) when a publication date is present. -/
def calculate_relevance_of_newsitem
    (sim : List ℚ → List ℚ → ℚ)
    (title_embedding bow_embedding : List ℚ)
    (feedback_records : List FeedbackRecord)
    (similarity_threshold : ℚ)
    (days_since_publication : Option ℤ) : Option ℚ :=
  match calculate_relevance_by_cosine_similarity sim title_embedding feedback_records
      similarity_threshold titleExtractor,
    calculate_relevance_by_cosine_similarity sim bow_embedding feedback_records
      similarity_threshold titleExtractor with
  | some title_relevance, some bow_relevance =>
    let relevance := max title_relevance bow_relevance
    match days_since_publication with
    | some days =>
      let decay := (1 : ℚ) / 10 * (days : ℚ)
      some (relevance * max (1 - decay) (7 / 10))
    | none => some relevance
  | _, _ => none

/-- update_relevance_of_news_items (src/lib.rs).  score is the per-item
feedback relevance (calculate_relevance_of_newsitem applied to that item's
own embeddings; the claims about this function constrain only how results
are attributed, so the per-item value is a parameter).  The fan-out spawns
one task per item, SKIPPING items that carry an error, so the k-th spawned
task computes the score of the k-th error-free item; the fan-in then walks
the handles with enumerate and writes the k-th result into news_items[k] --
an index into the original slice, not into the subsequence that was actually
fanned out. -/
def update_relevance_of_news_items
    (score : NewsItem ℚ → ℚ) (news_items : List (NewsItem ℚ)) : List (NewsItem ℚ) :=
  let results := (news_items.filter (fun it => it.error.isNone)).map score
  news_items.enum.map (fun p =>
    match results[p.1]? with
    | some r => { p.2 with relevance := some r }
    | none => p.2)

/-! # Claim-side definitions

These definitions follow the words of the spec / claims, to be compared with
the definitions above that were translated from the source. -/

/-- The per-query feedback value exactly as claim C1 words it: cosine
similarity of the query against each record's stored title embedding, keep
the records whose similarity strictly exceeds the threshold, 0 if none
passes, otherwise the unweighted arithmetic mean of the passing records'
stored relevance values. -/
def claimPerQueryRelevance (sim : List ℚ → List ℚ → ℚ) (embedding : List ℚ)
    (feedback_records : List FeedbackRecord) (threshold : ℚ) : ℚ :=
  let passing := feedback_records.filter
    (fun r => threshold < sim embedding r.title_embedding)
  if passing.isEmpty then 0
  else (passing.map (fun r => r.news_item.relevance.getD 0)).sum / (passing.length : ℚ)

/-- Clamping of a negative average to 0, the step the source applies to each
per-query average and claim C1 omits. -/
def clampNonNeg (x : ℚ) : ℚ :=
  if x < 0 then 0 else x

/-- The bag of words exactly as claim C8 words it: the deduplicated,
lowercased union of the item's individual keyword tokens and category
tokens (the fields are comma-joined), joined with a single-space
separator. -/
def claimTokenBow (it : NewsItem ℚ) : String :=
  let keywordTokens := match it.keywords with
    | some s => (splitOnChar ',' s).map toLowercase
    | none => []
  let categoryTokens := match it.categories with
    | some s => (splitOnChar ',' s).map toLowercase
    | none => []
  String.intercalate " " (keywordTokens ++ categoryTokens).dedup

/-- The retained-item predicate as claim C9 words it, for a non-empty term
list: under AND every term occurs as a substring of the item's categories or
of its keywords (each defaulting to the empty string when absent), under OR
at least one does. -/
def claimOptInKeep (terms : List String) (operator : Operator) (item : NewsItem ℚ) : Bool :=
  match operator with
  | .AND => terms.all (fun t =>
      strContains (item.categories.getD "") t || strContains (item.keywords.getD "") t)
  | .OR => terms.any (fun t =>
      strContains (item.categories.getD "") t || strContains (item.keywords.getD "") t)

/-! # Concrete fixtures for witnesses and counterexamples -/

/-- A baseline item: every field empty or absent. -/
def blankItem : NewsItem ℚ :=
  { channel := "", title := "", link := "", description := "", creators := ""
    pub_date := none, categories := none, keywords := none, clean_content := none
    error := none, relevance := none }

/-- A baseline item over the NaN-aware scalar type. -/
def blankItemF : NewsItem F64 :=
  { channel := "", title := "", link := "", description := "", creators := ""
    pub_date := none, categories := none, keywords := none, clean_content := none
    error := none, relevance := none }

/-- A one-dimensional feedback record with stored relevance 1. -/
def unitRecord : FeedbackRecord :=
  { news_item := { blankItem with relevance := some 1 }
    title_embedding := [1], bow_embedding := [1] }

/-- A one-dimensional feedback record with stored relevance -1. -/
def negRecord : FeedbackRecord :=
  { news_item := { blankItem with relevance := some (-1) }
    title_embedding := [1], bow_embedding := [1] }

/-- A similarity measure that always answers 1 (concrete stand-in for the
cosine kernel in closed instances). -/
def simOne : List ℚ → List ℚ → ℚ :=
  fun _ _ => 1

/-! # Helper lemmas -/

/-- A weighted accumulation loop counts the matching tokens. -/
theorem foldl_count (p : String → Bool) (w : ℕ) (toks : List String) (acc : ℕ) :
    toks.foldl (fun r t => if p t then r + w else r) acc = acc + w * toks.countP p := by
  induction toks generalizing acc with
  | nil => simp
  | cons t ts ih =>
    simp only [List.foldl_cons, List.countP_cons]
    by_cases h : p t
    · rw [if_pos h, ih, if_pos h]
      ring
    · rw [if_neg h, ih, if_neg h]
      ring

/-- relevanceLoop is the weighted count of vocabulary-relevant tokens. -/
theorem relevanceLoop_eq (extra : List String) (w : ℕ) (toks : List String) :
    relevanceLoop extra w toks =
      w * toks.countP (fun t => similar_to_root_word extra t DICE_COEFFICIENT) := by
  simpa using foldl_count (fun t => similar_to_root_word extra t DICE_COEFFICIENT) w toks 0

/-- A character list has UTF-8 byte size zero exactly when it is empty. -/
theorem utf8Len_eq_zero {l : List Char} : utf8Len l = 0 ↔ l = [] := by
  cases l with
  | nil => simp [utf8Len]
  | cons c cs =>
    have h := Char.utf8Size_pos c
    simp only [utf8Len, List.map_cons, List.sum_cons]
    constructor
    · intro hc; omega
    · intro hc; cases hc

/-- The byte-length guard on a string field is exactly non-emptiness. -/
theorem utf8Len_pos_iff (s : String) : (0 < utf8Len s.data) ↔ s ≠ "" := by
  constructor
  · intro h he
    subst he
    simp [utf8Len] at h
  · intro h
    rcases Nat.eq_zero_or_pos (utf8Len s.data) with hz | hp
    · exact absurd (by cases s with
        | mk data =>
          cases utf8Len_eq_zero.mp hz
          rfl) h
    · exact hp

/-- A guarded relevance loop is the weighted count even without the guard. -/
theorem guarded_loop_eq (extra : List String) (w : ℕ) (s : String) :
    (if 0 < utf8Len s.data then relevanceLoop extra w (splitWhitespace s) else 0) =
      w * (splitWhitespace s).countP (fun t => similar_to_root_word extra t DICE_COEFFICIENT) := by
  by_cases h : 0 < utf8Len s.data
  · rw [if_pos h, relevanceLoop_eq]
  · rw [if_neg h]
    have hz : utf8Len s.data = 0 := Nat.eq_zero_of_not_pos h
    have : s = "" := by
      cases s with
      | mk data => cases utf8Len_eq_zero.mp hz; rfl
    subst this
    rw [show splitWhitespace "" = [] from rfl]
    simp

/-! # The claims -/

/-- Claim C3: on an item with an error the lexical scorer returns the
error-flagged all-zero breakdown; otherwise the creator component is 10
exactly when the creators string is non-empty, the categories and keywords
components are 5 per vocabulary-relevant comma token, the title component is
10 per vocabulary-relevant whitespace word, the description and body-content
components are 1 per vocabulary-relevant whitespace word (0 when clean
content is absent), a token being vocabulary-relevant exactly when its
Sorensen-Dice similarity to some vocabulary term reaches 0.75, and the net
relevance is the sum of all six components. -/
theorem c3_lexical_scorer (extra : List String) (it : NewsItem ℚ) :
    (it.error.isSome = true →
      calculate_relevance extra it = Relevance.new (true, 0, 0, 0, 0, 0) 0 0) ∧
    (it.error = none →
      calculate_relevance extra it =
        Relevance.new
          (false,
            (if it.creators = "" then 0 else 10),
            5 * (match it.categories with
                 | some categories => (splitOnChar ',' categories).countP
                     (fun t => similar_to_root_word extra t DICE_COEFFICIENT)
                 | none => 0),
            5 * (match it.keywords with
                 | some keywords => (splitOnChar ',' keywords).countP
                     (fun t => similar_to_root_word extra t DICE_COEFFICIENT)
                 | none => 0),
            10 * (splitWhitespace it.title).countP
                (fun t => similar_to_root_word extra t DICE_COEFFICIENT),
            1 * (splitWhitespace it.description).countP
                (fun t => similar_to_root_word extra t DICE_COEFFICIENT))
          (match it.clean_content with
           | some cc => (splitWhitespace cc).countP
               (fun t => similar_to_root_word extra t DICE_COEFFICIENT)
           | none => 0)
          0 ∧
      (calculate_relevance extra it).net_relevance =
        (if it.creators = "" then 0 else 10) +
        5 * (match it.categories with
             | some categories => (splitOnChar ',' categories).countP
                 (fun t => similar_to_root_word extra t DICE_COEFFICIENT)
             | none => 0) +
        5 * (match it.keywords with
             | some keywords => (splitOnChar ',' keywords).countP
                 (fun t => similar_to_root_word extra t DICE_COEFFICIENT)
             | none => 0) +
        10 * (splitWhitespace it.title).countP
            (fun t => similar_to_root_word extra t DICE_COEFFICIENT) +
        1 * (splitWhitespace it.description).countP
            (fun t => similar_to_root_word extra t DICE_COEFFICIENT) +
        (match it.clean_content with
         | some cc => (splitWhitespace cc).countP
             (fun t => similar_to_root_word extra t DICE_COEFFICIENT)
         | none => 0)) := by
  constructor
  · intro herr
    unfold calculate_relevance calculate_relevance_core
    simp [herr]
  · intro herr
    have hcore : calculate_relevance_core extra it =
        (false,
          (if it.creators = "" then 0 else 10),
          5 * (match it.categories with
               | some categories => (splitOnChar ',' categories).countP
                   (fun t => similar_to_root_word extra t DICE_COEFFICIENT)
               | none => 0),
          5 * (match it.keywords with
               | some keywords => (splitOnChar ',' keywords).countP
                   (fun t => similar_to_root_word extra t DICE_COEFFICIENT)
               | none => 0),
          10 * (splitWhitespace it.title).countP
              (fun t => similar_to_root_word extra t DICE_COEFFICIENT),
          1 * (splitWhitespace it.description).countP
              (fun t => similar_to_root_word extra t DICE_COEFFICIENT)) := by
      unfold calculate_relevance_core
      rw [if_neg (by simp [herr])]
      refine congrArg (Prod.mk false) ?_
      refine congrArg₂ Prod.mk ?_ (congrArg₂ Prod.mk ?_ (congrArg₂ Prod.mk ?_
        (congrArg₂ Prod.mk ?_ ?_)))
      · by_cases hc : it.creators = ""
        · rw [if_pos hc, if_neg (by rw [hc]; simp [utf8Len])]
        · rw [if_neg hc, if_pos ((utf8Len_pos_iff it.creators).mpr hc)]
      · cases it.categories with
        | none => rfl
        | some categories => exact relevanceLoop_eq extra 5 (splitOnChar ',' categories)
      · cases it.keywords with
        | none => rfl
        | some keywords => exact relevanceLoop_eq extra 5 (splitOnChar ',' keywords)
      · exact guarded_loop_eq extra 10 it.title
      · exact guarded_loop_eq extra 1 it.description
    have hcontent :
        (match it.clean_content with
         | some cc => relevanceLoop extra 1 (splitWhitespace cc)
         | none => 0) =
        (match it.clean_content with
         | some cc => (splitWhitespace cc).countP
             (fun t => similar_to_root_word extra t DICE_COEFFICIENT)
         | none => 0) := by
      cases it.clean_content with
      | none => rfl
      | some cc => simpa using relevanceLoop_eq extra 1 (splitWhitespace cc)
    constructor
    · unfold calculate_relevance
      rw [hcore]
      simp only [hcontent]
      rw [if_neg (by simp)]
    · unfold calculate_relevance
      rw [hcore]
      simp only [hcontent]
      rw [if_neg (by simp)]
      simp only [Relevance.net_relevance, Relevance.new]

/-- The per-query code path equals the claim's recipe with the source's
negative-average clamp applied: under matching dimensionality,
calculate_relevance_by_cosine_similarity returns the claim's thresholded
average, clamped to 0 when negative. -/
theorem calc_by_cos_eq_claim (sim : List ℚ → List ℚ → ℚ) (emb : List ℚ)
    (records : List FeedbackRecord) (t : ℚ)
    (hdim : ∀ r ∈ records, r.title_embedding.length = emb.length) :
    calculate_relevance_by_cosine_similarity sim emb records t titleExtractor =
      some (clampNonNeg (claimPerQueryRelevance sim emb records t)) := by
  have hall : (records.all fun r => decide ((titleExtractor r).1.length = emb.length)) = true := by
    rw [List.all_eq_true]
    intro r hr
    exact decide_eq_true (hdim r hr)
  simp only [calculate_relevance_by_cosine_similarity, hall, if_true]
  have hfilter :
      (records.map (fun r => (sim emb (titleExtractor r).1, (titleExtractor r).2))).filter
          (fun p => decide (t < p.1)) =
        (records.filter (fun r => decide (t < sim emb r.title_embedding))).map
          (fun r => (sim emb r.title_embedding, r.news_item.relevance.getD 0)) := by
    rw [List.filter_map]
    rfl
  rw [hfilter]
  set passing := records.filter (fun r => decide (t < sim emb r.title_embedding)) with hpassing
  set f : FeedbackRecord → ℚ × ℚ :=
    (fun r => (sim emb r.title_embedding, r.news_item.relevance.getD 0)) with hf
  have hperm : (sortBy (fun a b => compare b.1 a.1) (passing.map f)).Perm (passing.map f) :=
    sortBy_perm _ _
  have hlen : (sortBy (fun a b => compare b.1 a.1) (passing.map f)).length = passing.length := by
    rw [hperm.length_eq, List.length_map]
  have hsum : ((sortBy (fun a b => compare b.1 a.1) (passing.map f)).map (fun p => p.2)).sum =
      (passing.map (fun r => r.news_item.relevance.getD 0)).sum := by
    rw [(hperm.map (fun p : ℚ × ℚ => p.2)).sum_eq, List.map_map]
    rfl
  simp only [claimPerQueryRelevance, ← hpassing]
  by_cases hempty : passing.isEmpty
  · have hnil : passing = [] := List.isEmpty_iff.mp hempty
    simp only [hempty, if_true]
    rw [if_pos (by rw [hnil]; rfl)]
    rfl
  · have hne : (sortBy (fun a b => compare b.1 a.1) (passing.map f)).isEmpty = false := by
      rw [List.isEmpty_eq_false_iff_exists_mem]
      rcases List.isEmpty_eq_false_iff_exists_mem.mp (Bool.eq_false_iff.mpr hempty)
        with ⟨x, hx⟩
      exact ⟨f x, hperm.mem_iff.mpr (List.mem_map_of_mem f hx)⟩
    simp only [hempty, if_false, hne]
    rw [List.length_map, hsum, hlen]
    unfold clampNonNeg
    simp only [Bool.false_eq_true, if_false]
    by_cases hneg :
        (passing.map fun r => r.news_item.relevance.getD 0).sum / (passing.length : ℚ) < 0
    · rw [if_pos hneg, if_pos hneg]
    · rw [if_neg hneg, if_neg hneg]

/-- Claim C1 (amended): under matching embedding dimensionality the pre-decay
feedback relevance equals max(title_relevance, bow_relevance) where each
per-query value compares the query against every record's stored TITLE
embedding, keeps the records whose similarity strictly exceeds the
threshold, yields 0 when none passes, and otherwise takes the unweighted
mean of the passing records' stored relevances (0 for an absent one) -- that
mean being additionally clamped to 0 when it is negative (the clamp is the
step the original claim omits). -/
theorem c1_predecay_feedback (sim : List ℚ → List ℚ → ℚ)
    (title_embedding bow_embedding : List ℚ) (records : List FeedbackRecord) (t : ℚ)
    (hdim : ∀ r ∈ records, r.title_embedding.length = title_embedding.length ∧
        r.title_embedding.length = bow_embedding.length) :
    calculate_relevance_of_newsitem sim title_embedding bow_embedding records t none =
      some (max (clampNonNeg (claimPerQueryRelevance sim title_embedding records t))
                (clampNonNeg (claimPerQueryRelevance sim bow_embedding records t))) := by
  unfold calculate_relevance_of_newsitem
  rw [calc_by_cos_eq_claim sim title_embedding records t (fun r hr => (hdim r hr).1),
      calc_by_cos_eq_claim sim bow_embedding records t (fun r hr => (hdim r hr).2)]

/-- Witness for claim C1's amended theorem at a concrete corpus. -/
theorem c1_predecay_feedback_witness :
    calculate_relevance_of_newsitem simOne [1] [1] [unitRecord] (1/2) none =
      some (max (clampNonNeg (claimPerQueryRelevance simOne [1] [unitRecord] (1/2)))
                (clampNonNeg (claimPerQueryRelevance simOne [1] [unitRecord] (1/2)))) :=
  c1_predecay_feedback simOne [1] [1] [unitRecord] (1/2) (by decide)

/-- Claim C1, as stated, is false: with one passing record of stored
relevance -1, the claim's formula gives -1 while the code clamps the
negative per-query average and returns 0. -/
theorem c1_counterexample_negative_mean :
    calculate_relevance_of_newsitem simOne [1] [1] [negRecord] (1/2) none = some 0 ∧
    max (claimPerQueryRelevance simOne [1] [negRecord] (1/2))
        (claimPerQueryRelevance simOne [1] [negRecord] (1/2)) = -1 ∧
    calculate_relevance_of_newsitem simOne [1] [1] [negRecord] (1/2) none ≠
      some (max (claimPerQueryRelevance simOne [1] [negRecord] (1/2))
                (claimPerQueryRelevance simOne [1] [negRecord] (1/2))) := by
  have hval : claimPerQueryRelevance simOne [1] [negRecord] (1/2) = -1 := by
    unfold claimPerQueryRelevance
    norm_num [negRecord, blankItem, simOne]
  have hcode : calculate_relevance_of_newsitem simOne [1] [1] [negRecord] (1/2) none = some 0 := by
    unfold calculate_relevance_of_newsitem
    rw [calc_by_cos_eq_claim simOne [1] [negRecord] (1/2) (by decide), hval]
    norm_num [clampNonNeg]
  refine ⟨hcode, by rw [hval]; norm_num, ?_⟩
  rw [hcode, hval]
  norm_num

/-- Claim C2 (amended): with a publication date the returned relevance is the
pre-decay relevance multiplied by max(1 - 0.1 * days, 0.7), with no further
clamp (so a future-dated item is scaled above its pre-decay value), and for
10 or more elapsed days the factor is exactly 0.7. -/
theorem c2_decay_factor (sim : List ℚ → List ℚ → ℚ) (te be : List ℚ)
    (records : List FeedbackRecord) (t : ℚ) (days : ℤ) :
    calculate_relevance_of_newsitem sim te be records t (some days) =
      Option.map (fun r => r * max (1 - (1 : ℚ)/10 * (days : ℚ)) (7/10))
        (calculate_relevance_of_newsitem sim te be records t none) ∧
    (10 ≤ days → max (1 - (1 : ℚ)/10 * (days : ℚ)) (7/10) = 7/10) := by
  constructor
  · unfold calculate_relevance_of_newsitem
    rcases calculate_relevance_by_cosine_similarity sim te records t titleExtractor with _ | a
    · rfl
    · rcases calculate_relevance_by_cosine_similarity sim be records t titleExtractor with _ | b
      · rfl
      · show some (max a b * max (1 - (1 : ℚ)/10 * (days : ℚ)) (7/10)) = _
        rfl
  · intro h
    have hd : (10 : ℚ) ≤ (days : ℚ) := by exact_mod_cast h
    have : (1 - (1 : ℚ)/10 * (days : ℚ)) ≤ 7/10 := by linarith
    exact max_eq_right this

/-- Claim C2, as stated, is false: the decay multiplier is not clamped to at
most 1; a future-dated item (day count -1) with pre-decay relevance 1 comes
back with relevance 11/10, above its pre-decay value. -/
theorem c2_counterexample_future_date :
    calculate_relevance_of_newsitem simOne [1] [1] [unitRecord] (1/2) none = some 1 ∧
    calculate_relevance_of_newsitem simOne [1] [1] [unitRecord] (1/2) (some (-1)) =
      some (11/10) ∧
    (1 : ℚ) < 11/10 := by
  have hval : claimPerQueryRelevance simOne [1] [unitRecord] (1/2) = 1 := by
    unfold claimPerQueryRelevance
    norm_num [unitRecord, blankItem, simOne]
  have hclaim := calc_by_cos_eq_claim simOne [1] [unitRecord] (1/2) (by decide)
  rw [hval] at hclaim
  have h1 : clampNonNeg 1 = 1 := by norm_num [clampNonNeg]
  rw [h1] at hclaim
  refine ⟨?_, ?_, by norm_num⟩
  · unfold calculate_relevance_of_newsitem
    rw [hclaim]
    norm_num
  · unfold calculate_relevance_of_newsitem
    rw [hclaim]
    show some (max 1 1 * max (1 - (1 : ℚ)/10 * ((-1 : ℤ) : ℚ)) (7/10)) = some (11/10)
    norm_num

/-- Claim C4: the fan-in of update_relevance_of_news_items misattributes
results when an error item precedes an error-free item: with the input
[error item, item titled A] and a scorer that gives the A item 5, the
computed 5 is written into the ERROR item (position 0) while the A item
keeps no relevance (failing input for the claim, which wants the A item to
receive its own score and the error item left unchanged). -/
theorem c4_counterexample_misattribution :
    update_relevance_of_news_items (fun it => if it.title = "A" then 5 else 3)
        [{ blankItem with error := some .NoContent }, { blankItem with title := "A" }] =
      [{ blankItem with error := some .NoContent, relevance := some 5 },
       { blankItem with title := "A" }] := by
  decide

/-- Claim C4 holds on the error-free fragment: when no input item carries an
error, the fan-out indices and the slice indices coincide and every item
receives exactly the score computed from itself. -/
theorem c4_no_error_attribution (score : NewsItem ℚ → ℚ) (news_items : List (NewsItem ℚ))
    (herr : ∀ it ∈ news_items, it.error = none) :
    update_relevance_of_news_items score news_items =
      news_items.map (fun it => { it with relevance := some (score it) }) := by
  unfold update_relevance_of_news_items
  have hfilter : news_items.filter (fun it => it.error.isNone) = news_items :=
    List.filter_eq_self.mpr (fun it hit => by
      rw [herr it hit]
      rfl)
  rw [hfilter]
  apply List.ext_getElem
  · simp [List.enum_length]
  · intro i hi hi2
    have hlen : i < news_items.length := by simpa using hi2
    simp only [List.getElem_map, List.getElem_enum]
    rw [List.getElem?_map, List.getElem?_eq_getElem hlen]
    rfl

/-- Witness for claim C4's error-free attribution theorem. -/
theorem c4_no_error_attribution_witness :
    update_relevance_of_news_items (fun it => if it.title = "A" then 5 else 3)
        [{ blankItem with title := "A" }] =
      [{ blankItem with title := "A" }].map
        (fun it => { it with relevance := some (if it.title = "A" then 5 else 3) }) :=
  c4_no_error_attribution (fun it => if it.title = "A" then 5 else 3)
    [{ blankItem with title := "A" }] (by decide)

/-- Claim C6: Relevance::cmp compares the error flags with bool's own order,
in which false is smaller, so a non-error breakdown ranks BELOW an
error-flagged one; consequently the descending sort of top_k_news_items
places a selected error-flagged item before every selected non-error item
(failing input: one scored non-error item and one error item, k = 2). -/
theorem c6_counterexample_error_ranks_first :
    Relevance.cmp (Relevance.new (false, 10, 0, 0, 0, 0) 0 0)
        (Relevance.new (true, 0, 0, 0, 0, 0) 0 0) = Ordering.lt ∧
    top_k_news_items [] 2
        [{ blankItem with creators := "x" }, { blankItem with error := some .NoContent }] =
      [{ blankItem with error := some .NoContent }, { blankItem with creators := "x" }] := by
  constructor
  · decide
  · decide

/-- Claim C7: round-tripping a PipelineError through as_string and from_str
fails for the payload-carrying variants and for UnknownError; only
EmptyString and NoContent survive.  The regex's first capture group holds
the whole matched text, so the match arm that would rebuild ParsingError
compares, e.g., the text ParsingError(xyz) against the bare name
ParsingError and never fires, and UnknownError is absent from the pattern
altogether. -/
theorem c7_counterexample_round_trip :
    PipelineError.from_str (PipelineError.as_string (.ParsingError "xyz")) = none ∧
    PipelineError.from_str (PipelineError.as_string (.NetworkError "conn reset")) = none ∧
    PipelineError.from_str (PipelineError.as_string .UnknownError) = none ∧
    PipelineError.from_str (PipelineError.as_string .EmptyString) = some .EmptyString ∧
    PipelineError.from_str (PipelineError.as_string .NoContent) = some .NoContent := by
  refine ⟨by decide, by decide, by decide, by decide, by decide⟩

/-- Claim C8, as stated, is false: get_bow deduplicates whole field strings,
not individual tokens.  With keywords a-comma-a and no categories the claim
asks for the single token a, but get_bow returns the whole lowercased field,
with the repeated token intact. -/
theorem c8_counterexample_token_dedup :
    NewsItem.get_bow { blankItem with keywords := some "a,a" } = "a,a" ∧
    claimTokenBow { blankItem with keywords := some "a,a" } = "a" ∧
    ("a,a" : String) ≠ "a" := by
  refine ⟨by decide, by decide, by decide⟩

/-- Claim C8 (amended): get_bow inserts the ENTIRE lowercased keywords
string and the ENTIRE lowercased categories string into the set (absent
fields contribute nothing) and joins the set with single spaces:
deduplication happens only when the two whole lowercased fields are equal,
never at token level.  The model fixes the unspecified two-element HashSet
iteration order as insertion order (keywords first). -/
theorem c8_field_level_bow (it : NewsItem ℚ) :
    NewsItem.get_bow it =
      match it.keywords, it.categories with
      | none, none => ""
      | some k, none => toLowercase k
      | none, some c => toLowercase c
      | some k, some c =>
        if toLowercase c = toLowercase k then toLowercase k
        else toLowercase k ++ " " ++ toLowercase c := by
  rcases hk : it.keywords with _ | k <;> rcases hc : it.categories with _ | c <;>
    simp only [NewsItem.get_bow, addToBow, hk, hc]
  · rfl
  · rfl
  · rfl
  · show " ".intercalate (if toLowercase c ∈ [toLowercase k] then [toLowercase k]
        else [toLowercase k] ++ [toLowercase c]) = _
    by_cases heq : toLowercase c = toLowercase k
    · rw [if_pos (List.mem_singleton.mpr heq), if_pos heq]
      rfl
    · rw [if_neg (fun hmem => heq (List.mem_singleton.mp hmem)), if_neg heq]
      rfl

/-- Claim C9: with an empty opt-in term list every fetched item passes the
retain step unchanged; with a non-empty list an item is retained exactly
when, with absent categories and keywords read as empty strings, every term
(AND) or at least one term (OR) occurs as a substring of its categories or
keywords. -/
theorem c9_opt_in_filter (items : List (NewsItem ℚ)) (terms : List String) (operator : Operator) :
    (terms = [] → fetch_news_items_opted_in items terms operator = items) ∧
    (terms ≠ [] → fetch_news_items_opted_in items terms operator =
        items.filter (claimOptInKeep terms operator)) := by
  constructor
  · rintro rfl
    unfold fetch_news_items_opted_in
    rw [List.filter_eq_self]
    intro a _
    rfl
  · intro h
    unfold fetch_news_items_opted_in
    apply List.filter_congr
    intro a _
    rcases terms with _ | ⟨t, ts⟩
    · exact absurd rfl h
    · rfl

/-- On the F64 model, partial_cmp answers none exactly when one side is a
NaN. -/
theorem partial_cmp_none_iff (x y : F64) :
    F64.partial_cmp x y = none ↔ (x.isNan = true ∨ y.isNan = true) := by
  cases x <;> cases y <;> simp [F64.partial_cmp, F64.isNan]

/-- Claim C10: cmp_relevance returns an Ordering (the unwrap cannot panic)
unless both relevance values are present and at least one of them is NaN,
and in exactly that case it panics (none in the model); every sort built on
it therefore carries the precondition that no scored item holds a NaN
relevance. -/
theorem c10_cmp_relevance_nan (a b : NewsItem F64) :
    NewsItem.cmp_relevance a b = none ↔
      ∃ x y, a.relevance = some x ∧ b.relevance = some y ∧
        (x.isNan = true ∨ y.isNan = true) := by
  rcases ha : a.relevance with _ | x <;> rcases hb : b.relevance with _ | y <;>
    simp [NewsItem.cmp_relevance, ha, hb, partial_cmp_none_iff]

/-- The descending relevance order claim C5 describes on the output: higher
relevance first, an absent relevance after every present one, two absent
values tied. -/
def relevanceGe : Option ℚ → Option ℚ → Prop
  | some a, some b => b ≤ a
  | some _, none => True
  | none, some _ => False
  | none, none => True

/-- The top-k comparator never says gt in both directions. -/
theorem relevanceTopKCmp_antisym (a b : NewsItem ℚ) :
    relevanceTopKCmp a b = .gt → relevanceTopKCmp b a ≠ .gt := by
  unfold relevanceTopKCmp
  rcases a.relevance with _ | av <;> rcases b.relevance with _ | bv <;>
    simp [compare_gt_iff_gt]
  exact fun h => le_of_lt h

/-- The not-gt relation of the top-k comparator is transitive. -/
theorem relevanceTopKCmp_trans (a b c : NewsItem ℚ) :
    relevanceTopKCmp a b ≠ .gt → relevanceTopKCmp b c ≠ .gt →
      relevanceTopKCmp a c ≠ .gt := by
  unfold relevanceTopKCmp
  rcases a.relevance with _ | av <;> rcases b.relevance with _ | bv <;>
    rcases c.relevance with _ | cv <;> simp [compare_gt_iff_gt, not_lt]
  exact fun h1 h2 => le_trans h2 h1

/-- Claim C5: on a non-empty input list the top-k update succeeds and the
returned list is sorted by relevance descending with every absent relevance
after all present ones (vacuously here, since every returned item has just
been given a relevance), holds at most k items (exactly min(k, n)), and for
k at least the input length it is the full sorted input: a permutation of
the input items, each carrying its freshly computed lexical relevance. -/
theorem c5_top_k_sorted (extra : List String) (items : List (NewsItem ℚ)) (k : ℕ)
    (hne : items ≠ []) :
    ∃ out, update_news_items_with_relevance_top_k extra items k = some out ∧
      out.Pairwise (fun a b => relevanceGe a.relevance b.relevance) ∧
      out.length = min k items.length ∧
      (items.length ≤ k → out.Perm (items.map (updateWithNet extra))) := by
  have hupdne : (items.reverse.map (updateWithNet extra)).isEmpty = false := by
    rcases items with _ | ⟨x, xs⟩
    · exact absurd rfl hne
    · rw [List.isEmpty_eq_false_iff_exists_mem]
      exact ⟨updateWithNet extra x, List.mem_map_of_mem _ (by simp)⟩
  have hupd : update_news_items_with_relevance extra items =
      some (items.reverse.map (updateWithNet extra)) := by
    unfold update_news_items_with_relevance
    simp only [hupdne, Bool.false_eq_true, if_false]
  set upd := items.reverse.map (updateWithNet extra) with hupddef
  have hsortperm : (sortBy relevanceTopKCmp upd).Perm upd := sortBy_perm _ _
  have hlen : (sortBy relevanceTopKCmp upd).length = items.length := by
    rw [hsortperm.length_eq, hupddef, List.length_map, List.length_reverse]
  refine ⟨(sortBy relevanceTopKCmp upd).take k, ?_, ?_, ?_, ?_⟩
  · unfold update_news_items_with_relevance_top_k
    rw [hupd]
    rfl
  · have hpair := sortBy_pairwise relevanceTopKCmp_antisym relevanceTopKCmp_trans upd
    have hsome : ∀ x ∈ sortBy relevanceTopKCmp upd, x.relevance.isSome = true := by
      intro x hx
      rcases List.mem_map.mp (by
        rw [hupddef] at hsortperm
        exact hsortperm.mem_iff.mp hx) with ⟨y, _, rfl⟩
      rfl
    have hge : (sortBy relevanceTopKCmp upd).Pairwise
        (fun a b => relevanceGe a.relevance b.relevance) := by
      refine List.Pairwise.imp_of_mem ?_ hpair
      intro a b ha hb hcmp
      have hae := hsome a ha
      have hbe := hsome b hb
      rcases hxa : a.relevance with _ | av
      · rw [hxa] at hae
        cases hae
      · rcases hxb : b.relevance with _ | bv
        · rw [hxb] at hbe
          cases hbe
        · show bv ≤ av
          unfold relevanceTopKCmp at hcmp
          rw [hxa, hxb] at hcmp
          simpa [compare_gt_iff_gt, not_lt] using hcmp
    exact hge.sublist (List.take_sublist k _)
  · rw [List.length_take, hlen]
  · intro hk
    have htake : (sortBy relevanceTopKCmp upd).take k = sortBy relevanceTopKCmp upd := by
      apply List.take_of_length_le
      rw [hlen]
      exact hk
    rw [htake]
    refine hsortperm.trans ?_
    rw [hupddef]
    exact (items.reverse_perm).map (updateWithNet extra)

/-- Witness for claim C5's theorem on a concrete one-item list. -/
theorem c5_top_k_sorted_witness :
    ∃ out, update_news_items_with_relevance_top_k [] [blankItem] 1 = some out ∧
      out.Pairwise (fun a b => relevanceGe a.relevance b.relevance) ∧
      out.length = min 1 ([blankItem] : List (NewsItem ℚ)).length ∧
      (([blankItem] : List (NewsItem ℚ)).length ≤ 1 →
        out.Perm (([blankItem] : List (NewsItem ℚ)).map (updateWithNet []))) :=
  c5_top_k_sorted [] [blankItem] 1 (by decide)
